import Mathlib

/-!
Verification development for the discord-support-agent repository.

Shallow embedding of the message-processing pipeline:
* `classifier.py` — categories, classification results, the output validator
  and the retry loop around it;
* `bot.py` — the seen-id intake cache with capped eviction, the per-message
  processing control flow, and the issue-creation eligibility check;
* `issue_tracker.py` — title/body construction and the GitHub ticket
  deduplication engine.

Python strings are modelled through their code-point lists (`String.data`),
so slicing, length and membership tests mirror Python's code-point
semantics.  Python floats (the classifier confidence) are modelled as exact
rationals; every comparison the claims exercise (`0.1 < 0.3`, `0.9 ≥ 0.3`)
has the same outcome for IEEE doubles and for the rationals used here.
-/

namespace DiscordSupportAgent

/-! ### Python string primitives (code-point semantics) -/

/-- Python `needle in haystack` restricted to prefix position:
`startsWithChars n h` is true iff `n` is a prefix of `h`. -/
def startsWithChars : List Char → List Char → Bool
  | [], _ => true
  | _ :: _, [] => false
  | a :: asx, b :: bs => a == b && startsWithChars asx bs

/-- Python substring membership `needle in haystack` on code-point lists. -/
def hasSubChars (needle : List Char) : List Char → Bool
  | [] => needle.isEmpty
  | c :: rest => startsWithChars needle (c :: rest) || hasSubChars needle rest

/-- Python `needle in haystack` for strings. -/
def strContains (needle haystack : String) : Bool :=
  hasSubChars needle.data haystack.data

/-- Python's whitespace set for `str.strip()` (ASCII part; the claims only
exercise spaces and tabs). -/
def isPythonSpace (c : Char) : Bool :=
  c = ' ' || c = '\t' || c = '\n' || c = '\r' || c = '\x0b' || c = '\x0c'

/-- Python `str.strip()`. -/
def pyStrip (s : String) : String :=
  ⟨((s.data.dropWhile isPythonSpace).reverse.dropWhile isPythonSpace).reverse⟩

/-- Python slice `s[:n]` (by code points). -/
def pyTake (s : String) (n : Nat) : String :=
  ⟨s.data.take n⟩

/-- Python `len(s)` (code points). -/
def pyLen (s : String) : Nat :=
  s.data.length

/-- Python `str.replace(pattern, replacement)` for one-character pattern and
replacement, the only form the source uses (`.replace("_", " ")`). -/
def pyReplaceChar (s : String) (pattern replacement : Char) : String :=
  ⟨s.data.map (fun c => if c = pattern then replacement else c)⟩

/-- One step of Python `str.title()`: a letter is uppercased when the
previous character is not a letter, lowercased otherwise. -/
def pyTitleChars : List Char → Bool → List Char
  | [], _ => []
  | c :: rest, prevCased =>
    (if c.isAlpha then (if prevCased then c.toLower else c.toUpper) else c) ::
      pyTitleChars rest c.isAlpha

/-- Python `str.title()`. -/
def pyTitle (s : String) : String :=
  ⟨pyTitleChars s.data false⟩

/-! ### classifier.py — data model -/

/-- `MessageCategory` from classifier.py. -/
inductive MessageCategory where
  | support_request
  | complaint
  | bug_report
  | general_chat
  | other
deriving DecidableEq

/-- The `.value` of each enum member. -/
def MessageCategory.value : MessageCategory → String
  | .support_request => "support_request"
  | .complaint => "complaint"
  | .bug_report => "bug_report"
  | .general_chat => "general_chat"
  | .other => "other"

/-- `ClassificationResult` from classifier.py; the float confidence is
modelled as an exact rational. -/
structure ClassificationResult where
  category : MessageCategory
  confidence : ℚ
  reason : String
  requires_attention : Bool
deriving DecidableEq

/-- The `attention_categories` set in `validate_classification`. -/
def attention_categories : List MessageCategory :=
  [.support_request, .complaint, .bug_report]

/-- `min_confidence` in `validate_classification` (0.3 as an exact
rational). -/
def min_confidence : ℚ := mkRat 3 10

/-- The `ModelRetry` message raised by `validate_classification`. -/
def retryMessage : String :=
  "Low confidence classification that requires attention. Please re-analyze the message more carefully."

/-- Outcome of one run of the output validator: either an (possibly
repaired) accepted result, or a `ModelRetry` exception. -/
inductive ValidationOutcome where
  | accepted (result : ClassificationResult)
  | modelRetry (message : String)
deriving DecidableEq

/-- `validate_classification` from classifier.py (lines 171–203): recompute
`requires_attention` from the category and overwrite on disagreement, then
raise `ModelRetry` when the corrected result requires attention with
confidence below 0.3. -/
def validate_classification (result : ClassificationResult) : ValidationOutcome :=
  let expected_attention := attention_categories.contains result.category
  let result :=
    if result.requires_attention ≠ expected_attention then
      { result with requires_attention := expected_attention }
    else result
  if result.confidence < min_confidence ∧ result.requires_attention then
    ValidationOutcome.modelRetry retryMessage
  else ValidationOutcome.accepted result

/-- `retries=2` in the `Agent` construction (classifier.py line 158). -/
def agentRequestRetries : Nat := 2

/-- `output_retries=3` in the `Agent` construction (classifier.py line 159). -/
def agentOutputRetries : Nat := 3

/-- The output-validation retry loop of `Agent.run`: candidate number
`attempt` is produced by the predictor and validated; a `ModelRetry` moves
to the next candidate while fuel remains. -/
def runOutputLoop (predictor : Nat → ClassificationResult) :
    Nat → Nat → Option ClassificationResult
  | _, 0 => none
  | attempt, fuel + 1 =>
    match validate_classification (predictor attempt) with
    | .accepted r => some r
    | .modelRetry _ => runOutputLoop predictor (attempt + 1) fuel

/-- Top-level `MessageClassifier.classify`: the predictor's candidate
stream run through the output validator, with the initial attempt plus up
to `agentOutputRetries` retries. -/
def classify (predictor : Nat → ClassificationResult) : Option ClassificationResult :=
  runOutputLoop predictor 0 (agentOutputRetries + 1)

/-! ### issue_tracker.py — data model and ticket engine -/

/-- `IssueTrackerType` from issue_tracker.py. -/
inductive IssueTrackerType where
  | none
  | github
  | linear
deriving DecidableEq

/-- `IssueInfo` from issue_tracker.py. -/
structure IssueInfo where
  tracker : IssueTrackerType
  issue_id : String
  issue_url : String
  title : String
deriving DecidableEq

/-- `MessageContext` from issue_tracker.py. -/
structure MessageContext where
  message_id : Nat
  message_content : String
  author_name : String
  author_id : Nat
  channel_name : String
  channel_id : Nat
  guild_name : String
  guild_id : Nat
  message_url : String
  classification : ClassificationResult
deriving DecidableEq

/-- `IssueTracker._TITLE_MAX_LENGTH`. -/
def _TITLE_MAX_LENGTH : Nat := 50

/-- The category display used by `_build_title`:
`category.value.replace("_", " ").title()`. -/
def categoryDisplay (c : MessageCategory) : String :=
  pyTitle (pyReplaceChar c.value '_' ' ')

/-- `IssueTracker._build_title` (issue_tracker.py lines 70–77). -/
def _build_title (context : MessageContext) : String :=
  let category_display := categoryDisplay context.classification.category
  let content_preview := pyTake context.message_content _TITLE_MAX_LENGTH
  let content_preview :=
    if _TITLE_MAX_LENGTH < pyLen context.message_content then content_preview ++ "..."
    else content_preview
  "[" ++ category_display ++ "] " ++ content_preview

/-- Round `a / b` (for `b > 0`) to the nearest integer, ties to even — the
rounding Python's `"{:.0%}"` float formatting performs. -/
def roundHalfEvenDiv (a b : ℤ) : ℤ :=
  let f := Int.fdiv a b
  let r := a - b * f
  if 2 * r < b then f
  else if b < 2 * r then f + 1
  else if f % 2 = 0 then f else f + 1

/-- Python `f"{q:.0%}"`: the rational `q * 100 = (num * 100) / den` rounded
half-to-even, with a percent sign. -/
def formatPercent (q : ℚ) : String :=
  toString (roundHalfEvenDiv (q.num * 100) (q.den : ℤ)) ++ "%"

/-- The part of the `_build_body` template before the blockquoted message
content (issue_tracker.py lines 81–90). -/
def bodyBeforeQuote (context : MessageContext) : String :=
  "## Discord Message\n\n**Author:** " ++ context.author_name ++
  "\n**Channel:** #" ++ context.channel_name ++
  "\n**Server:** " ++ context.guild_name ++
  "\n**Link:** " ++ context.message_url ++
  "\n\n## Message Content\n\n"

/-- The part of the `_build_body` template after the blockquoted message
content (issue_tracker.py lines 90–100). -/
def bodyAfterQuote (context : MessageContext) : String :=
  "\n\n## Classification\n\n- **Category:** " ++ context.classification.category.value ++
  "\n- **Confidence:** " ++ formatPercent context.classification.confidence ++
  "\n- **Reason:** " ++ context.classification.reason ++
  "\n\n---\n<!-- discord_message_id:" ++ toString context.message_id ++ " -->\n"

/-- `IssueTracker._build_body` (issue_tracker.py lines 79–100), written as
the template split at the blockquote `"> " + message_content`. -/
def _build_body (context : MessageContext) : String :=
  bodyBeforeQuote context ++ ("> " ++ context.message_content) ++ bodyAfterQuote context

/-- A GitHub issue as the dedup engine observes it: number, title, body,
permalink and open/closed state. -/
structure Issue where
  number : Nat
  title : String
  body : String
  html_url : String
  isOpen : Bool
deriving DecidableEq

/-- The `IssueInfo` the dedup search builds from a matched issue
(issue_tracker.py lines 213–218). -/
def issueInfoOf (issue : Issue) : IssueInfo :=
  ⟨IssueTrackerType.github, toString issue.number, issue.html_url, issue.title⟩

/-- The GitHub repository as `GitHubIssueTracker` observes it: issues in
newest-first creation order plus the next issue number and the repo slug. -/
structure TrackerState where
  repo : String
  issues : List Issue
  nextNumber : Nat
deriving DecidableEq

/-- `GitHubIssueTracker._DEDUP_SEARCH_LIMIT`. -/
def _DEDUP_SEARCH_LIMIT : Nat := 50

/-- `repo.get_issues(state="open", sort="created", direction="desc")`:
the open issues, newest first, or a transport failure. -/
def fetchOpenIssues (transportFails : Bool) (st : TrackerState) : Except String (List Issue) :=
  if transportFails then Except.error "transport failure"
  else Except.ok (st.issues.filter (fun issue => issue.isOpen))

/-- `GitHubIssueTracker._find_existing_issue` (issue_tracker.py lines
197–224): scan the first `_DEDUP_SEARCH_LIMIT` fetched open issues for one
whose body contains `"> " + message_content`; any transport failure is
caught and treated as no match. -/
def _find_existing_issue (fetched : Except String (List Issue))
    (message_content : String) : Option IssueInfo :=
  let quoted_content := "> " ++ message_content
  match fetched with
  | .error _ => Option.none
  | .ok issues =>
    ((issues.take _DEDUP_SEARCH_LIMIT).find?
        (fun issue => !(issue.body == "") && strContains quoted_content issue.body)).map
      issueInfoOf

/-- The `html_url` GitHub assigns a created issue. -/
def issueUrl (repo : String) (n : Nat) : String :=
  "https://github.com/" ++ repo ++ "/issues/" ++ toString n

/-- `GitHubIssueTracker._create_issue_sync` (issue_tracker.py lines
226–252): create the issue (open, newest) and return its info and the new
repository state. -/
def _create_issue_sync (st : TrackerState) (context : MessageContext) :
    IssueInfo × TrackerState :=
  let title := _build_title context
  let body := _build_body context
  let n := st.nextNumber
  let issue : Issue := ⟨n, title, body, issueUrl st.repo n, true⟩
  (⟨IssueTrackerType.github, toString n, issue.html_url, title⟩,
   { st with issues := issue :: st.issues, nextNumber := n + 1 })

/-- Result of one `create_issue` call: the returned info, the tracker
state afterwards, and whether a new ticket was actually created. -/
structure CreateOutcome where
  info : IssueInfo
  state : TrackerState
  created : Bool
deriving DecidableEq

/-- `GitHubIssueTracker.create_issue` (issue_tracker.py lines 175–193):
dedup search first; on a match return the existing ticket's info without
creating, otherwise create. -/
def create_issue (transportFails : Bool) (st : TrackerState)
    (context : MessageContext) : CreateOutcome :=
  match _find_existing_issue (fetchOpenIssues transportFails st) context.message_content with
  | some existing => ⟨existing, st, false⟩
  | none =>
    let sync := _create_issue_sync st context
    ⟨sync.1, sync.2, true⟩

/-! ### bot.py — seen-id cache, intake filter, processing control flow -/

/-- `self._max_processed_cache` (bot.py line 47). -/
def maxProcessedCache : Nat := 10000

/-- The eviction step of `on_message` (bot.py lines 77–81): when the set
exceeds the cap, discard the first `size - cap` entries of `list(set)`.
`order` models the arbitrary enumeration order of `list(...)` over a
Python set. -/
def evictOverCap (cap : Nat) (order : Finset Nat → List Nat) (s : Finset Nat) : Finset Nat :=
  if cap < s.card then
    ((order s).take (s.card - cap)).foldl (fun t x => t.erase x) s
  else s

/-- A valid model of Python's `list(set)`: an enumeration of exactly the
set's elements, without repetition, in an arbitrary order. -/
def orderValid (order : Finset Nat → List Nat) : Prop :=
  ∀ t : Finset Nat, (order t).Nodup ∧ ∀ x : Nat, x ∈ order t ↔ x ∈ t

/-- One concrete valid enumeration: the set's elements in ascending order,
read off `List.range`. -/
def ascOrder (t : Finset Nat) : List Nat :=
  (List.range (t.max.unbot' 0 + 1)).filter (fun x => decide (x ∈ t))

/-- The fields of an inbound Discord message the intake filter reads. -/
structure InboundMessage where
  id : Nat
  authorIsBot : Bool
  guildId : Option Nat
  content : String
deriving DecidableEq

/-- The guild-filter part of the bot settings (`discord_guild_ids`). -/
structure BotSettings where
  discord_guild_ids : List Nat
deriving DecidableEq

/-- Where `on_message` stopped for a message. -/
inductive MessageOutcome where
  | droppedBot
  | droppedDM
  | droppedGuildFilter
  | droppedSeen
  | droppedEmpty
  | processed
deriving DecidableEq

/-- `SupportMonitorBot.on_message` (bot.py lines 57–87): bot/DM/guild
filters, seen-id check, insert into the seen cache with capped eviction,
then the empty-content check, and only then processing. -/
def on_message (settings : BotSettings) (cap : Nat) (order : Finset Nat → List Nat)
    (seen : Finset Nat) (msg : InboundMessage) : MessageOutcome × Finset Nat :=
  if msg.authorIsBot then (.droppedBot, seen)
  else
    match msg.guildId with
    | Option.none => (.droppedDM, seen)
    | some gid =>
      if !settings.discord_guild_ids.isEmpty && !settings.discord_guild_ids.contains gid then
        (.droppedGuildFilter, seen)
      else if msg.id ∈ seen then (.droppedSeen, seen)
      else
        let seen' := evictOverCap cap order (insert msg.id seen)
        if (pyStrip msg.content) == "" then (.droppedEmpty, seen')
        else (.processed, seen')

/-- The seen cache after a sequence of message arrivals. -/
def runMessages (settings : BotSettings) (cap : Nat) (order : Finset Nat → List Nat)
    (seen : Finset Nat) (msgs : List InboundMessage) : Finset Nat :=
  msgs.foldl (fun s m => (on_message settings cap order s m).2) seen

/-- The eligibility check of `SupportMonitorBot._maybe_create_issue`
(bot.py lines 164–182): true iff `issue_tracker.create_issue` is invoked —
tracker not "none", and the category allow-list either empty (Python
falsy, filter skipped) or containing the result's category. -/
def shouldCreateIssue (trackerType : IssueTrackerType) (issueCategories : List String)
    (category : MessageCategory) : Bool :=
  if trackerType = IssueTrackerType.none then false
  else if !issueCategories.isEmpty && !issueCategories.contains category.value then false
  else true

/-- Observable effects of one `_process_message` call (bot.py lines
89–131 and 164–209). -/
structure ProcessTrace where
  notifyAttempted : Bool
  createIssueInvoked : Bool
  errorLoggedOuter : Bool
  errorLoggedCreate : Bool
  raised : Bool
deriving DecidableEq

/-- `SupportMonitorBot._process_message` control flow: the whole body runs
under one `try`; `_notify` is not individually guarded, so an exception
raised there is caught by the outer handler (logged, not re-raised) and
skips `_maybe_create_issue`; inside `_maybe_create_issue` the
`create_issue` call has its own handler (bot.py lines 201–209). -/
def _process_message (classifyFails requiresAttention notifyFails : Bool)
    (trackerType : IssueTrackerType) (issueCategories : List String)
    (category : MessageCategory) (createFails : Bool) : ProcessTrace :=
  if classifyFails then ⟨false, false, true, false, false⟩
  else if !requiresAttention then ⟨false, false, false, false, false⟩
  else if notifyFails then ⟨true, false, true, false, false⟩
  else if shouldCreateIssue trackerType issueCategories category then
    if createFails then ⟨true, true, false, true, false⟩
    else ⟨true, true, false, false, false⟩
  else ⟨true, false, false, false, false⟩

/-! ### Concrete sample data for witnesses and counterexamples -/

/-- A sample high-confidence classification (mirrors the test fixtures). -/
def sampleClassification : ClassificationResult :=
  ⟨.support_request, mkRat 9 10, "User needs help", true⟩

/-- A sample message context around a given content. -/
def sampleContext (content : String) : MessageContext :=
  ⟨123, content, "TestUser", 456, "general", 789, "TestServer", 101112,
   "https://discord.com/channels/1/2/3", sampleClassification⟩

/-- A tracker state with no issues yet. -/
def emptyTracker : TrackerState :=
  ⟨"owner/repo", [], 1⟩

/-- An open ticket whose body blockquotes the given message content. -/
def ticketQuoting (content : String) : Issue :=
  ⟨1, _build_title (sampleContext content), _build_body (sampleContext content),
   issueUrl "owner/repo" 1, true⟩

/-- 100 `'A'` characters. -/
def hundredAs : String :=
  ⟨List.replicate 100 'A'⟩

/-! ### Helper lemmas -/

set_option maxRecDepth 10000

theorem startsWithChars_iff (n h : List Char) : startsWithChars n h = true ↔ n <+: h := by
  induction n generalizing h with
  | nil => simp [startsWithChars]
  | cons a asx ih =>
    cases h with
    | nil => simp [startsWithChars]
    | cons b bs =>
      simp only [startsWithChars, Bool.and_eq_true, beq_iff_eq, ih, List.cons_prefix_cons]

theorem hasSubChars_iff (n h : List Char) : hasSubChars n h = true ↔ n <:+: h := by
  induction h with
  | nil => simp [hasSubChars, List.isEmpty_iff]
  | cons c rest ih =>
    simp only [hasSubChars, Bool.or_eq_true, startsWithChars_iff, ih,
      List.infix_cons_iff]

theorem strContains_append (a b c : String) : strContains b (a ++ b ++ c) = true := by
  rw [strContains, hasSubChars_iff]
  show b.data <:+: (a ++ b ++ c).data
  rw [String.data_append, String.data_append]
  exact List.infix_append _ _ _

theorem quoted_infix_build_body (ctx : MessageContext) :
    strContains ("> " ++ ctx.message_content) (_build_body ctx) = true := by
  unfold _build_body
  exact strContains_append _ _ _

theorem build_body_ne_empty (ctx : MessageContext) : (_build_body ctx == "") = false := by
  rw [beq_eq_false_iff_ne]
  intro h
  have hd := congrArg String.data h
  simp only [_build_body, bodyBeforeQuote, String.data_append, List.append_assoc] at hd
  exact absurd hd (by simp)

theorem validate_classification_eq (c : ClassificationResult) :
    validate_classification c =
      (if c.confidence < min_confidence ∧ attention_categories.contains c.category = true then
        ValidationOutcome.modelRetry retryMessage
      else ValidationOutcome.accepted
        { c with requires_attention := attention_categories.contains c.category }) := by
  rcases c with ⟨cat, conf, reason, ra⟩
  unfold validate_classification
  cases hc : attention_categories.contains cat <;> cases ra <;> simp [hc]

theorem validate_classification_accepted {c r : ClassificationResult}
    (h : validate_classification c = .accepted r) :
    r.requires_attention = attention_categories.contains r.category ∧
    r.category = c.category ∧ r.confidence = c.confidence ∧
    ¬(r.confidence < min_confidence ∧ r.requires_attention = true) := by
  rw [validate_classification_eq] at h
  by_cases h2 : c.confidence < min_confidence ∧ attention_categories.contains c.category = true
  · rw [if_pos h2] at h
    exact absurd h (by simp)
  · rw [if_neg h2] at h
    obtain rfl : ({ c with requires_attention := attention_categories.contains c.category} :
        ClassificationResult) = r := by injection h
    refine ⟨rfl, rfl, rfl, fun hx => h2 ⟨hx.1, hx.2⟩⟩

theorem validate_classification_repairs {c : ClassificationResult}
    (h : ¬(c.confidence < min_confidence ∧ attention_categories.contains c.category = true)) :
    validate_classification c =
      .accepted { c with requires_attention := attention_categories.contains c.category } := by
  rw [validate_classification_eq, if_neg h]

theorem runOutputLoop_accepted {predictor : Nat → ClassificationResult}
    {attempt fuel : Nat} {r : ClassificationResult}
    (h : runOutputLoop predictor attempt fuel = some r) :
    ∃ k, validate_classification (predictor k) = .accepted r := by
  induction fuel generalizing attempt with
  | zero => simp [runOutputLoop] at h
  | succ n ih =>
    rw [runOutputLoop] at h
    cases hv : validate_classification (predictor attempt) with
    | accepted r' =>
      rw [hv] at h
      obtain rfl : r' = r := by injection h
      exact ⟨attempt, hv⟩
    | modelRetry m =>
      rw [hv] at h
      exact ih h

/-! ### Claim theorems -/

/-- C1: every `ClassificationResult` returned by a successful top-level
`classify` satisfies `requires_attention = (category ∈ attention
categories)`: the validator recomputes the flag from the category and
overwrites a disagreeing predictor value (repair, not rejection), so no
accepted result violates the invariant. -/
theorem C1_attention_invariant :
    (∀ c r : ClassificationResult, validate_classification c = .accepted r →
        r.requires_attention = attention_categories.contains r.category ∧
        r.category = c.category) ∧
    (∀ c : ClassificationResult,
        ¬(c.confidence < min_confidence ∧ attention_categories.contains c.category = true) →
        validate_classification c =
          .accepted { c with requires_attention := attention_categories.contains c.category }) ∧
    (∀ (predictor : Nat → ClassificationResult) (r : ClassificationResult),
        classify predictor = some r →
        r.requires_attention = attention_categories.contains r.category) := by
  refine ⟨fun c r h => ⟨(validate_classification_accepted h).1,
      (validate_classification_accepted h).2.1⟩,
    fun c h => validate_classification_repairs h,
    fun predictor r h => ?_⟩
  obtain ⟨k, hk⟩ := runOutputLoop_accepted h
  exact (validate_classification_accepted hk).1

/-- C1 witness: a concrete disagreeing candidate is repaired and accepted,
and the accepted result satisfies the invariant. -/
theorem C1_attention_invariant_witness :
    validate_classification ⟨.bug_report, mkRat 9 10, "bug", false⟩ =
      .accepted ⟨.bug_report, mkRat 9 10, "bug", true⟩ ∧
    (⟨.bug_report, mkRat 9 10, "bug", true⟩ : ClassificationResult).requires_attention =
      attention_categories.contains MessageCategory.bug_report :=
  ⟨by decide,
   (C1_attention_invariant.1 ⟨.bug_report, mkRat 9 10, "bug", false⟩
     ⟨.bug_report, mkRat 9 10, "bug", true⟩ (by decide)).1⟩

/-- C6: a candidate with confidence 0.1 and category bug-report is
rejected by the output validator with the corrective `ModelRetry`
instruction, so it is not accepted on the first attempt; no result of
`classify` has confidence below 0.3 together with requires-attention; the
output-validation retry budget is 3. -/
theorem C6_low_confidence_retry :
    (∀ c : ClassificationResult, c.confidence = mkRat 1 10 → c.category = .bug_report →
        validate_classification c = .modelRetry retryMessage) ∧
    (∀ (predictor : Nat → ClassificationResult) (r : ClassificationResult),
        classify predictor = some r →
        ¬(r.confidence < min_confidence ∧ r.requires_attention = true)) ∧
    agentOutputRetries = 3 := by
  refine ⟨fun c h1 h2 => ?_, fun predictor r h => ?_, rfl⟩
  · unfold validate_classification
    rcases c with ⟨cat, conf, reason, ra⟩
    simp only at h1 h2
    subst h1; subst h2
    cases ra <;> simp [attention_categories, min_confidence] <;> decide
  · obtain ⟨k, hk⟩ := runOutputLoop_accepted h
    exact (validate_classification_accepted hk).2.2.2

/-- C6 witness: the concrete 0.1-confidence bug-report candidate is
rejected with the corrective instruction. -/
theorem C6_low_confidence_retry_witness :
    validate_classification ⟨.bug_report, mkRat 1 10, "low", false⟩ = .modelRetry retryMessage :=
  C6_low_confidence_retry.1 ⟨.bug_report, mkRat 1 10, "low", false⟩ rfl rfl

/-- C7: with a tracker configured (not "none"), an empty category
allow-list means ticket creation is attempted for every message requiring
attention; a non-empty allow-list that does not contain the result's
category skips ticket creation — in particular allow-list ["bug_report"]
with category support_request creates no ticket. -/
theorem C7_allowlist :
    (∀ (tt : IssueTrackerType) (cat : MessageCategory), tt ≠ IssueTrackerType.none →
        shouldCreateIssue tt [] cat = true) ∧
    (∀ (tt : IssueTrackerType) (cats : List String) (cat : MessageCategory),
        cats ≠ [] → cat.value ∉ cats → shouldCreateIssue tt cats cat = false ∨
          tt = IssueTrackerType.none) ∧
    (∀ (tt : IssueTrackerType) (cat : MessageCategory), tt ≠ IssueTrackerType.none →
        (_process_message false true false tt [] cat false).createIssueInvoked = true) ∧
    shouldCreateIssue IssueTrackerType.github ["bug_report"] MessageCategory.support_request =
      false := by
  refine ⟨fun tt cat h => ?_, fun tt cats cat h1 h2 => ?_, fun tt cat h => ?_, by decide⟩
  · simp [shouldCreateIssue, h]
  · left
    simp [shouldCreateIssue, h1, h2]
  · simp [_process_message, shouldCreateIssue, h]

/-- C7 witness: with the GitHub tracker, an empty allow-list attempts
creation, and allow-list ["bug_report"] with category support_request
skips it. -/
theorem C7_allowlist_witness :
    shouldCreateIssue IssueTrackerType.github [] MessageCategory.support_request = true ∧
    (shouldCreateIssue IssueTrackerType.github ["support"] MessageCategory.complaint = false ∨
      IssueTrackerType.github = IssueTrackerType.none) ∧
    (_process_message false true false IssueTrackerType.github [] MessageCategory.support_request
        false).createIssueInvoked = true :=
  ⟨C7_allowlist.1 IssueTrackerType.github MessageCategory.support_request (by decide),
   C7_allowlist.2.1 IssueTrackerType.github ["support"] MessageCategory.complaint (by decide)
     (by decide),
   C7_allowlist.2.2.1 IssueTrackerType.github MessageCategory.support_request (by decide)⟩

/-- C9: a transport failure during the dedup search is treated as "no
duplicate found": the search returns none instead of propagating, and
`create_issue` proceeds to create a new ticket. -/
theorem C9_transport_failure_creates (st : TrackerState) (ctx : MessageContext) (e c : String) :
    _find_existing_issue (Except.error e) c = Option.none ∧
    fetchOpenIssues true st = Except.error "transport failure" ∧
    create_issue true st ctx =
      ⟨(_create_issue_sync st ctx).1, (_create_issue_sync st ctx).2, true⟩ :=
  ⟨rfl, rfl, rfl⟩

/-- C5 counterexample: with classification succeeding, attention required,
an eligible tracker configuration, and notification dispatch raising, the
ticket-creation step is not attempted — refuting "a failure raised during
notification dispatch … does not prevent the ticket-creation step for the
same message from being attempted". -/
theorem C5_counterexample :
    (_process_message false true true IssueTrackerType.github []
        MessageCategory.support_request false).createIssueInvoked = false ∧
    shouldCreateIssue IssueTrackerType.github [] MessageCategory.support_request = true := by
  decide

/-- C5 amended: a failure during notification dispatch is caught and
logged by the per-message handler and never propagated, but it aborts the
remainder of that message's processing, so ticket creation is not
attempted for that message; a ticket-creation failure is caught inside the
issue step, logged, and does not affect the already-dispatched
notification. -/
theorem C5_failure_isolation :
    (∀ (cls ra nf : Bool) (tt : IssueTrackerType) (cats : List String)
        (cat : MessageCategory) (cf : Bool),
        (_process_message cls ra nf tt cats cat cf).raised = false) ∧
    (∀ (tt : IssueTrackerType) (cats : List String) (cat : MessageCategory) (cf : Bool),
        (_process_message false true true tt cats cat cf).errorLoggedOuter = true ∧
        (_process_message false true true tt cats cat cf).createIssueInvoked = false) ∧
    (∀ (tt : IssueTrackerType) (cats : List String) (cat : MessageCategory),
        shouldCreateIssue tt cats cat = true →
        (_process_message false true false tt cats cat true).notifyAttempted = true ∧
        (_process_message false true false tt cats cat true).errorLoggedCreate = true ∧
        (_process_message false true false tt cats cat true).raised = false) := by
  refine ⟨fun cls ra nf tt cats cat cf => ?_, fun tt cats cat cf => ?_, fun tt cats cat h => ?_⟩
  · unfold _process_message
    split_ifs <;> rfl
  · exact ⟨rfl, rfl⟩
  · simp [_process_message, h]

/-- C5 amended witness: with the GitHub tracker, empty allow-list and a
failing ticket creation, the notification was attempted, the failure is
logged in the issue step, and nothing propagates. -/
theorem C5_failure_isolation_witness :
    shouldCreateIssue IssueTrackerType.github [] MessageCategory.complaint = true ∧
    ((_process_message false true false IssueTrackerType.github [] MessageCategory.complaint
        true).notifyAttempted = true ∧
     (_process_message false true false IssueTrackerType.github [] MessageCategory.complaint
        true).errorLoggedCreate = true ∧
     (_process_message false true false IssueTrackerType.github [] MessageCategory.complaint
        true).raised = false) :=
  ⟨by decide,
   C5_failure_isolation.2.2 IssueTrackerType.github [] MessageCategory.complaint (by decide)⟩

theorem card_foldl_erase (victims : List Nat) (s : Finset Nat)
    (hnd : victims.Nodup) (hsub : ∀ x ∈ victims, x ∈ s) :
    (victims.foldl (fun t x => t.erase x) s).card = s.card - victims.length := by
  induction victims generalizing s with
  | nil => simp
  | cons v vs ih =>
    rw [List.foldl_cons]
    have hv : v ∈ s := hsub v (by simp)
    have hvs : ∀ x ∈ vs, x ∈ s.erase v := by
      intro x hx
      exact Finset.mem_erase.mpr ⟨fun he => (List.nodup_cons.mp hnd).1 (he ▸ hx), hsub x (by simp [hx])⟩
    rw [ih (s.erase v) (List.nodup_cons.mp hnd).2 hvs, Finset.card_erase_of_mem hv]
    simp only [List.length_cons]
    omega

theorem orderValid_length {order : Finset Nat → List Nat} (h : orderValid order)
    (s : Finset Nat) : (order s).length = s.card := by
  have hs : (order s).toFinset = s := by
    ext x
    rw [List.mem_toFinset]
    exact (h s).2 x
  calc (order s).length = (order s).toFinset.card := (List.toFinset_card_of_nodup (h s).1).symm
    _ = s.card := by rw [hs]

theorem evictOverCap_card_of_gt {cap : Nat} {order : Finset Nat → List Nat} {s : Finset Nat}
    (h : orderValid order) (hgt : cap < s.card) :
    (evictOverCap cap order s).card = cap := by
  unfold evictOverCap
  rw [if_pos hgt]
  have hnd : ((order s).take (s.card - cap)).Nodup :=
    (List.take_sublist _ _).nodup (h s).1
  have hsub : ∀ x ∈ (order s).take (s.card - cap), x ∈ s := by
    intro x hx
    exact ((h s).2 x).mp ((List.take_sublist _ _).subset hx)
  rw [card_foldl_erase _ _ hnd hsub, List.length_take, orderValid_length h]
  omega

theorem evictOverCap_card_le {cap : Nat} {order : Finset Nat → List Nat}
    (h : orderValid order) (s : Finset Nat) :
    (evictOverCap cap order s).card ≤ cap := by
  by_cases hgt : cap < s.card
  · rw [evictOverCap_card_of_gt h hgt]
  · unfold evictOverCap
    rw [if_neg hgt]
    omega

theorem on_message_snd (settings : BotSettings) (cap : Nat) (order : Finset Nat → List Nat)
    (seen : Finset Nat) (msg : InboundMessage) :
    (on_message settings cap order seen msg).2 = seen ∨
    (on_message settings cap order seen msg).2 =
      evictOverCap cap order (insert msg.id seen) := by
  unfold on_message
  split
  · exact Or.inl rfl
  · split
    · exact Or.inl rfl
    · split
      · exact Or.inl rfl
      · split
        · exact Or.inl rfl
        · split
          · exact Or.inr rfl
          · exact Or.inr rfl

theorem on_message_card_le {cap : Nat} {order : Finset Nat → List Nat}
    (h : orderValid order) (settings : BotSettings) (seen : Finset Nat)
    (msg : InboundMessage) (hle : seen.card ≤ cap) :
    ((on_message settings cap order seen msg).2).card ≤ cap := by
  rcases on_message_snd settings cap order seen msg with he | he
  · rw [he]; exact hle
  · rw [he]; exact evictOverCap_card_le h _

theorem ascOrder_valid : orderValid ascOrder := by
  intro t
  constructor
  · exact (List.nodup_range _).filter _
  · intro x
    simp only [ascOrder, List.mem_filter, List.mem_range, decide_eq_true_eq]
    constructor
    · exact fun hx => hx.2
    · intro hx
      refine ⟨?_, hx⟩
      obtain ⟨m, hm⟩ := Finset.max_of_mem hx
      have hxm : x ≤ m := Finset.le_max_of_eq hx hm
      rw [hm, WithBot.unbot'_coe]
      omega

/-- C2: for every sequence of message arrivals, the seen-id cache stays
within the configured cap: an insert that pushes the size over the cap
evicts exactly enough (arbitrarily selected) entries to return the size to
the cap, the size after any arrival sequence starting from the empty cache
never exceeds the cap, and the configured cap is 10,000. -/
theorem C2_cache_bounded (cap : Nat) (order : Finset Nat → List Nat)
    (horder : orderValid order) :
    (∀ s : Finset Nat, cap < s.card → (evictOverCap cap order s).card = cap) ∧
    (∀ (settings : BotSettings) (msgs : List InboundMessage),
        (runMessages settings cap order ∅ msgs).card ≤ cap) ∧
    maxProcessedCache = 10000 := by
  refine ⟨fun s h => evictOverCap_card_of_gt horder h, fun settings msgs => ?_, rfl⟩
  have key : ∀ (msgs : List InboundMessage) (seen : Finset Nat), seen.card ≤ cap →
      (runMessages settings cap order seen msgs).card ≤ cap := by
    intro msgs
    induction msgs with
    | nil => intro seen h; exact h
    | cons m ms ih =>
      intro seen h
      exact ih _ (on_message_card_le horder settings seen m h)
  exact key msgs ∅ (by simp)

/-- C2 witness: the bound instantiated at cap 2 with the concrete
ascending enumeration order. -/
theorem C2_cache_bounded_witness :
    orderValid ascOrder ∧
    ((∀ s : Finset Nat, 2 < s.card → (evictOverCap 2 ascOrder s).card = 2) ∧
     (∀ (settings : BotSettings) (msgs : List InboundMessage),
        (runMessages settings 2 ascOrder ∅ msgs).card ≤ 2) ∧
     maxProcessedCache = 10000) :=
  ⟨ascOrder_valid, C2_cache_bounded 2 ascOrder ascOrder_valid⟩

/-- C3: two ticket-creation requests with identical message content (and
the tracker state carried from the first call to the second) create
exactly one ticket: the first call creates, the second call's dedup search
finds the just-created ticket through its blockquoted content and returns
the same identifier/URL/title without creating again (state unchanged). -/
theorem C3_identical_content_one_ticket (st0 : TrackerState) (ctx1 ctx2 : MessageContext)
    (hsame : ctx2.message_content = ctx1.message_content)
    (hnew : _find_existing_issue (fetchOpenIssues false st0) ctx1.message_content =
      Option.none) :
    (create_issue false st0 ctx1).created = true ∧
    (create_issue false (create_issue false st0 ctx1).state ctx2).created = false ∧
    (create_issue false (create_issue false st0 ctx1).state ctx2).info =
      (create_issue false st0 ctx1).info ∧
    (create_issue false (create_issue false st0 ctx1).state ctx2).state =
      (create_issue false st0 ctx1).state := by
  have h1 : create_issue false st0 ctx1 =
      ⟨(_create_issue_sync st0 ctx1).1, (_create_issue_sync st0 ctx1).2, true⟩ := by
    unfold create_issue
    rw [hnew]
  have hstate : (create_issue false st0 ctx1).state =
      { st0 with
        issues := ⟨st0.nextNumber, _build_title ctx1, _build_body ctx1,
          issueUrl st0.repo st0.nextNumber, true⟩ :: st0.issues,
        nextNumber := st0.nextNumber + 1 } := by
    rw [h1]
    rfl
  set newIssue : Issue := ⟨st0.nextNumber, _build_title ctx1, _build_body ctx1,
    issueUrl st0.repo st0.nextNumber, true⟩ with hni
  have hfetch : fetchOpenIssues false (create_issue false st0 ctx1).state =
      Except.ok (newIssue :: st0.issues.filter (fun issue => issue.isOpen)) := by
    rw [hstate]
    unfold fetchOpenIssues
    rw [if_neg (by simp)]
    rfl
  have hp : (!(newIssue.body == "") &&
      strContains ("> " ++ ctx2.message_content) newIssue.body) = true := by
    rw [hsame]
    have hb : newIssue.body = _build_body ctx1 := rfl
    rw [hb, build_body_ne_empty ctx1, quoted_infix_build_body ctx1]
    rfl
  have htake : ((newIssue :: st0.issues.filter (fun issue => issue.isOpen)).take
      _DEDUP_SEARCH_LIMIT) =
      newIssue :: ((st0.issues.filter (fun issue => issue.isOpen)).take 49) := rfl
  have hfind : _find_existing_issue
      (Except.ok (newIssue :: st0.issues.filter (fun issue => issue.isOpen)))
      ctx2.message_content = some (issueInfoOf newIssue) := by
    show Option.map issueInfoOf
        (((newIssue :: st0.issues.filter (fun issue => issue.isOpen)).take
          _DEDUP_SEARCH_LIMIT).find?
          (fun issue => !(issue.body == "") &&
            strContains ("> " ++ ctx2.message_content) issue.body)) =
      some (issueInfoOf newIssue)
    rw [htake, List.find?_cons, hp]
    rfl
  have h2 : ∀ st1 : TrackerState,
      fetchOpenIssues false st1 =
        Except.ok (newIssue :: st0.issues.filter (fun issue => issue.isOpen)) →
      create_issue false st1 ctx2 = ⟨issueInfoOf newIssue, st1, false⟩ := by
    intro st1 hf
    unfold create_issue
    rw [hf, hfind]
  refine ⟨by rw [h1], by rw [h2 _ hfetch], ?_, by rw [h2 _ hfetch]⟩
  rw [h2 _ hfetch, h1]
  rfl

/-- C3 witness: starting from an empty tracker, two requests for the same
concrete content produce one created ticket, and the second call returns
the first ticket's info unchanged. -/
theorem C3_identical_content_one_ticket_witness :
    (sampleContext "help").message_content = (sampleContext "help").message_content ∧
    _find_existing_issue (fetchOpenIssues false emptyTracker)
      (sampleContext "help").message_content = Option.none ∧
    ((create_issue false emptyTracker (sampleContext "help")).created = true ∧
     (create_issue false (create_issue false emptyTracker (sampleContext "help")).state
        (sampleContext "help")).created = false ∧
     (create_issue false (create_issue false emptyTracker (sampleContext "help")).state
        (sampleContext "help")).info =
       (create_issue false emptyTracker (sampleContext "help")).info ∧
     (create_issue false (create_issue false emptyTracker (sampleContext "help")).state
        (sampleContext "help")).state =
       (create_issue false emptyTracker (sampleContext "help")).state) :=
  ⟨rfl, by decide,
   C3_identical_content_one_ticket emptyTracker (sampleContext "help") (sampleContext "help")
     rfl (by decide)⟩

theorem find_existing_match_spec {issues : List Issue} {c : String} {info : IssueInfo}
    (h : _find_existing_issue (Except.ok issues) c = some info) :
    ∃ issue ∈ issues.take _DEDUP_SEARCH_LIMIT,
      (issue.body == "") = false ∧ strContains ("> " ++ c) issue.body = true ∧
      info = issueInfoOf issue := by
  unfold _find_existing_issue at h
  rw [Option.map_eq_some'] at h
  obtain ⟨issue, hfind, hinfo⟩ := h
  have hmem := List.mem_of_find?_eq_some hfind
  have hpred := List.find?_some hfind
  rw [Bool.and_eq_true, Bool.not_eq_true'] at hpred
  exact ⟨issue, hmem, hpred.1, hpred.2, hinfo.symm⟩

/-- C4 counterexample: the dedup substring check still false-positives
when the new message content is a prefix of a longer quoted message — a
search for content "help" matches a ticket whose body blockquotes "help
with password reset", refuting "a short message does not falsely match a
ticket quoting a longer message it is a substring of". -/
theorem C4_counterexample :
    _find_existing_issue (Except.ok [ticketQuoting "help with password reset"]) "help" =
      some (issueInfoOf (ticketQuoting "help with password reset")) := by
  decide

/-- C4 amended: the dedup search matches only via the exact blockquoted
text `"> " + message_content` occurring in a ticket body (never a raw
substring of the message), so a ticket quoting "help" does not match a new
request for "help with password reset"; however the converse protection
does not hold: a short message that is a prefix of a longer quoted message
still matches that ticket (e.g. "help" against a ticket quoting "help with
password reset"). -/
theorem C4_quoted_match :
    (∀ (issues : List Issue) (c : String) (info : IssueInfo),
        _find_existing_issue (Except.ok issues) c = some info →
        ∃ issue ∈ issues.take _DEDUP_SEARCH_LIMIT,
          (issue.body == "") = false ∧ strContains ("> " ++ c) issue.body = true ∧
          info = issueInfoOf issue) ∧
    _find_existing_issue (Except.ok [ticketQuoting "help"]) "help with password reset" =
      Option.none ∧
    _find_existing_issue (Except.ok [ticketQuoting "help with password reset"]) "help" =
      some (issueInfoOf (ticketQuoting "help with password reset")) := by
  exact ⟨fun issues c info h => find_existing_match_spec h, by decide, by decide⟩

/-- C4 witness: the matching characterization applied to the concrete
prefix false positive. -/
theorem C4_quoted_match_witness :
    ∃ issue ∈ [ticketQuoting "help with password reset"].take _DEDUP_SEARCH_LIMIT,
      (issue.body == "") = false ∧ strContains ("> " ++ "help") issue.body = true ∧
      issueInfoOf (ticketQuoting "help with password reset") = issueInfoOf issue :=
  C4_quoted_match.1 [ticketQuoting "help with password reset"] "help"
    (issueInfoOf (ticketQuoting "help with password reset")) (by decide)

/-- C8: the ticket title is `"[" + category in Title Case + "] "` followed
by the message content, truncated to its first 50 characters with "..."
appended exactly when the content exceeds 50 characters; for 100 'A'
characters the title contains "..." and is shorter than 100 characters. -/
theorem C8_build_title (ctx : MessageContext) :
    (pyLen ctx.message_content ≤ _TITLE_MAX_LENGTH →
      _build_title ctx =
        "[" ++ categoryDisplay ctx.classification.category ++ "] " ++ ctx.message_content) ∧
    (_TITLE_MAX_LENGTH < pyLen ctx.message_content →
      _build_title ctx =
        "[" ++ categoryDisplay ctx.classification.category ++ "] " ++
          (pyTake ctx.message_content _TITLE_MAX_LENGTH ++ "...")) ∧
    (ctx.message_content = hundredAs →
      strContains "..." (_build_title ctx) = true ∧ pyLen (_build_title ctx) < 100) := by
  have heq : _build_title ctx =
      "[" ++ categoryDisplay ctx.classification.category ++ "] " ++
        (if _TITLE_MAX_LENGTH < pyLen ctx.message_content then
          pyTake ctx.message_content _TITLE_MAX_LENGTH ++ "..."
        else pyTake ctx.message_content _TITLE_MAX_LENGTH) := by
    unfold _build_title
    by_cases h : _TITLE_MAX_LENGTH < pyLen ctx.message_content
    · simp only [if_pos h]
    · simp only [if_neg h]
  refine ⟨fun h => ?_, fun h => ?_, fun h => ?_⟩
  · have htake : pyTake ctx.message_content _TITLE_MAX_LENGTH = ctx.message_content := by
      unfold pyTake
      rw [List.take_of_length_le h]
    rw [heq, if_neg (Nat.not_lt.mpr h), htake]
  · rw [heq, if_pos h]
  · rw [heq, h, if_pos (by decide)]
    cases hc : ctx.classification.category <;> exact ⟨by decide, by decide⟩

/-- C8 witness: the truncation behavior at the concrete 100-'A' content. -/
theorem C8_build_title_witness :
    (sampleContext hundredAs).message_content = hundredAs ∧
    (strContains "..." (_build_title (sampleContext hundredAs)) = true ∧
     pyLen (_build_title (sampleContext hundredAs)) < 100) :=
  ⟨rfl, (C8_build_title (sampleContext hundredAs)).2.2 rfl⟩

/-- C10 counterexample: with the cache at its cap, the arbitrary eviction
triggered by inserting a whitespace-only message's id may evict that very
id (here: cap 1, cache {9}, message id 7, ascending eviction order evicts
7), after which the redelivery of the same id is not dropped as already
seen — refuting the unconditional "a later redelivery of that same id is
dropped as already seen". -/
theorem C10_counterexample :
    orderValid ascOrder ∧
    (on_message ⟨[]⟩ 1 ascOrder {9} ⟨7, false, some 3, " "⟩).1 =
      MessageOutcome.droppedEmpty ∧
    7 ∉ (on_message ⟨[]⟩ 1 ascOrder {9} ⟨7, false, some 3, " "⟩).2 ∧
    (on_message ⟨[]⟩ 1 ascOrder ((on_message ⟨[]⟩ 1 ascOrder {9} ⟨7, false, some 3, " "⟩).2)
        ⟨7, false, some 3, " "⟩).1 ≠ MessageOutcome.droppedSeen :=
  ⟨ascOrder_valid, by decide, by decide, by decide⟩

/-- C10 amended: a whitespace-only message passing the bot/DM/guild
filters has its id inserted into the seen cache (possibly triggering
eviction) before the empty-content check drops it, and it is never
classified; provided the insert did not trigger an eviction (in
particular whenever the cache stays within cap), the id is still in the
cache afterwards and a redelivery of the same id is dropped as already
seen — an eviction may instead remove the just-inserted id (see the
counterexample). -/
theorem C10_empty_message_marked_seen (settings : BotSettings) (cap : Nat)
    (order : Finset Nat → List Nat) (seen : Finset Nat) (msg : InboundMessage) (gid : Nat)
    (hbot : msg.authorIsBot = false) (hguild : msg.guildId = some gid)
    (hfilter : (!settings.discord_guild_ids.isEmpty &&
      !settings.discord_guild_ids.contains gid) = false)
    (hempty : pyStrip msg.content = "")
    (hnew : msg.id ∉ seen)
    (hroom : (insert msg.id seen).card ≤ cap) :
    (on_message settings cap order seen msg).1 = MessageOutcome.droppedEmpty ∧
    msg.id ∈ (on_message settings cap order seen msg).2 ∧
    (on_message settings cap order (on_message settings cap order seen msg).2 msg).1 =
      MessageOutcome.droppedSeen ∧
    ∀ seen2 : Finset Nat,
      (on_message settings cap order seen2 msg).1 ≠ MessageOutcome.processed := by
  have hevict : evictOverCap cap order (insert msg.id seen) = insert msg.id seen := by
    unfold evictOverCap
    rw [if_neg (Nat.not_lt.mpr hroom)]
  have hbeq : (pyStrip msg.content == "") = true := by
    rw [hempty]
    rfl
  have hstep : on_message settings cap order seen msg =
      (MessageOutcome.droppedEmpty, insert msg.id seen) := by
    unfold on_message
    rw [hbot, hguild]
    simp only [Bool.false_eq_true, if_false, hfilter, if_neg hnew, hevict, hbeq, if_true]
  refine ⟨by rw [hstep], by rw [hstep]; exact Finset.mem_insert_self _ _, ?_, ?_⟩
  · rw [hstep]
    unfold on_message
    rw [hbot, hguild]
    simp only [Bool.false_eq_true, if_false, hfilter, if_pos (Finset.mem_insert_self msg.id seen)]
  · intro seen2
    unfold on_message
    rw [hbot, hguild]
    simp only [Bool.false_eq_true, if_false, hfilter, hbeq, if_true]
    by_cases hmem : msg.id ∈ seen2
    · rw [if_pos hmem]
      simp
    · rw [if_neg hmem]
      simp

/-- C10 amended witness: a concrete whitespace-only message on an
uncapped-yet cache is dropped as empty, marked seen, and its redelivery is
dropped as already seen. -/
theorem C10_empty_message_marked_seen_witness :
    pyStrip "   " = "" ∧
    ((on_message ⟨[]⟩ 5 ascOrder ∅ ⟨42, false, some 3, "   "⟩).1 =
        MessageOutcome.droppedEmpty ∧
     42 ∈ (on_message ⟨[]⟩ 5 ascOrder ∅ ⟨42, false, some 3, "   "⟩).2 ∧
     (on_message ⟨[]⟩ 5 ascOrder ((on_message ⟨[]⟩ 5 ascOrder ∅ ⟨42, false, some 3, "   "⟩).2)
        ⟨42, false, some 3, "   "⟩).1 = MessageOutcome.droppedSeen ∧
     ∀ seen2 : Finset Nat,
       (on_message ⟨[]⟩ 5 ascOrder seen2 ⟨42, false, some 3, "   "⟩).1 ≠
         MessageOutcome.processed) :=
  ⟨by decide,
   C10_empty_message_marked_seen ⟨[]⟩ 5 ascOrder ∅ ⟨42, false, some 3, "   "⟩ 3
     rfl rfl (by decide) (by decide) (by decide) (by decide)⟩

end DiscordSupportAgent
